import Mathlib

/-!
Shallow embedding of the mock_api core: the scoped in-memory data store
(`src/mock_api/src/mock_api/data/store.py`) and the Clerk token-verification
subsystem (`src/mock_api/src/mock_api/auth/clerk.py`), together with theorems
settling the testable properties of the specification.

Modelling conventions:
* Python `dict` values are modelled as insertion-ordered association lists
  (`List (String × α)`); `dict.get` is first-match lookup, `dict[k] = v`
  updates in place or appends.
* Python `set` union is modelled as a deterministic first-occurrence
  deduplicated list; the spec leaves enumeration order unspecified.
* Wall-clock times are modelled as `Int` seconds (the Python code uses
  floats only for `time.time()` differences against an integral TTL).
* External library behaviour (the `jwt` parser/decoder and the HTTP fetch)
  is passed in as explicit oracle arguments, so every code path of the
  repository's own logic is represented and executable.
-/

namespace MockApi

/-- Primitive scalar value appearing in pydantic `Union[str, int, float, bool]`
and free-form config fields. Floats do not occur in any behaviour verified
here and are omitted from the embedding. -/
inductive PrimVal where
  | pstr (s : String)
  | pint (n : Int)
  | pbool (b : Bool)
deriving DecidableEq

/-- Embedding of the pydantic model `Type` (`models/type.py`). Renamed to
`TypeModel` because `Type` is reserved in Lean. Timestamps are kept as their
ISO-8601 strings. -/
structure TypeModel where
  id : String
  name : String
  python_type : String
  description : String
  is_builtin : Bool
  is_nullable : Bool
  default_value : Option PrimVal
  owner_id : String
  account_id : String
  created_at : String
  updated_at : String
deriving DecidableEq

/-- Embedding of the enum `ValidatorType` (`models/validator.py`). -/
inductive ValidatorType where
  | length
  | range
  | pattern
  | custom
deriving DecidableEq

/-- Embedding of the pydantic model `Validator` (`models/validator.py`). -/
structure Validator where
  id : String
  name : String
  validator_type : ValidatorType
  description : String
  config : List (String × PrimVal)
  error_message : String
  owner_id : String
  account_id : String
  created_at : String
  updated_at : String
deriving DecidableEq

/-- Embedding of the pydantic model `Field` (`models/field.py`). The attribute
`namespace` keeps its source name via guillemets since `namespace` is a Lean
keyword. -/
structure Field where
  id : String
  name : String
  type_id : String
  description : String
  is_required : Bool
  is_unique : Bool
  is_indexed : Bool
  default_value : Option PrimVal
  validator_ids : List String
  «namespace» : String
  owner_id : String
  account_id : String
  created_at : String
  updated_at : String
deriving DecidableEq

/-- Embedding of the pydantic model `Object` (`models/object.py`). -/
structure Object where
  id : String
  name : String
  description : String
  field_ids : List String
  «namespace» : String
  table_name : String
  is_active : Bool
  owner_id : String
  account_id : String
  created_at : String
  updated_at : String
deriving DecidableEq

/-- Embedding of `DataStore.__init__` (`data/store.py`): a primary id map per
entity kind plus by-owner and by-account id-list indexes. -/
structure DataStore where
  types : List (String × TypeModel)
  validators : List (String × Validator)
  fields : List (String × Field)
  objects : List (String × Object)
  types_by_owner : List (String × List String)
  validators_by_owner : List (String × List String)
  fields_by_owner : List (String × List String)
  objects_by_owner : List (String × List String)
  types_by_account : List (String × List String)
  validators_by_account : List (String × List String)
  fields_by_account : List (String × List String)
  objects_by_account : List (String × List String)
deriving DecidableEq

/-- The empty store produced by `DataStore.__init__`. -/
def DataStore.empty : DataStore :=
  ⟨[], [], [], [], [], [], [], [], [], [], [], []⟩

/-- Python `d[k] = v` on an insertion-ordered dict: overwrite in place if the
key exists, else append. -/
def dictSet {α : Type} (m : List (String × α)) (k : String) (v : α) :
    List (String × α) :=
  if (m.find? (fun p => p.1 == k)).isSome then
    m.map (fun p => if p.1 == k then (p.1, v) else p)
  else
    m ++ [(k, v)]

/-- Python `defaultdict(list); d[k].append(v)`: append to the existing list,
or create a one-element list. -/
def indexAppend (m : List (String × List String)) (k v : String) :
    List (String × List String) :=
  if (m.find? (fun p => p.1 == k)).isSome then
    m.map (fun p => if p.1 == k then (p.1, p.2 ++ [v]) else p)
  else
    m ++ [(k, [v])]

/-- First-occurrence deduplication with an accumulator of already-seen
elements (kernel-reducible, structural recursion). -/
def dedupFirstAux : List String → List String → List String
  | _, [] => []
  | seen, x :: xs =>
    if seen.contains x then dedupFirstAux seen xs
    else x :: dedupFirstAux (x :: seen) xs

/-- Model of `set(a); s.update(b)` followed by iteration: the deduplicated
union of the two id lists. Python set order is unspecified; this embedding
fixes first-occurrence order, a valid instance of the spec's "deterministic
for a fixed underlying id enumeration order". -/
def unionIds (a b : List String) : List String :=
  dedupFirstAux [] (a ++ b)

/-- Python truthiness of an `Optional[str]`: `None` and `""` are falsy. -/
def nsTruthy : Option String → Bool
  | some s => s != ""
  | none => false

/-- Embedding of `DataStore.list_types`. Python defaults are
`limit=100, offset=0, namespace=None`; `result[offset:offset+limit]` for
non-negative bounds is drop-then-take. A `Type` has no `namespace`
attribute, so `getattr(t, 'namespace', '')` is the constant `""`. -/
def DataStore.list_types (store : DataStore) (owner_id account_id : String)
    (limit offset : Nat) (ns : Option String) : List TypeModel :=
  let type_ids := unionIds ((store.types_by_owner.lookup owner_id).getD [])
                           ((store.types_by_account.lookup account_id).getD [])
  let result := type_ids.filterMap (fun tid => store.types.lookup tid)
  let result := if nsTruthy ns then result.filter (fun _t => "" == ns.getD "")
                else result
  (result.drop offset).take limit

/-- Embedding of `DataStore.get_type`. -/
def DataStore.get_type (store : DataStore) (type_id owner_id account_id : String) :
    Option TypeModel :=
  match store.types.lookup type_id with
  | none => none
  | some t =>
    if t.owner_id == owner_id || t.account_id == account_id then some t
    else none

/-- Embedding of `DataStore.list_validators`. Like `list_types`, a
`Validator` has no `namespace` attribute. -/
def DataStore.list_validators (store : DataStore) (owner_id account_id : String)
    (limit offset : Nat) (ns : Option String) : List Validator :=
  let validator_ids := unionIds ((store.validators_by_owner.lookup owner_id).getD [])
                                ((store.validators_by_account.lookup account_id).getD [])
  let result := validator_ids.filterMap (fun vid => store.validators.lookup vid)
  let result := if nsTruthy ns then result.filter (fun _v => "" == ns.getD "")
                else result
  (result.drop offset).take limit

/-- Embedding of `DataStore.get_validator`. -/
def DataStore.get_validator (store : DataStore)
    (validator_id owner_id account_id : String) : Option Validator :=
  match store.validators.lookup validator_id with
  | none => none
  | some v =>
    if v.owner_id == owner_id || v.account_id == account_id then some v
    else none

/-- Embedding of `DataStore.list_fields`: the namespace filter compares the
field's real `namespace` attribute. -/
def DataStore.list_fields (store : DataStore) (owner_id account_id : String)
    (limit offset : Nat) (ns : Option String) : List Field :=
  let field_ids := unionIds ((store.fields_by_owner.lookup owner_id).getD [])
                            ((store.fields_by_account.lookup account_id).getD [])
  let result := field_ids.filterMap (fun fid => store.fields.lookup fid)
  let result := if nsTruthy ns then result.filter (fun f => f.«namespace» == ns.getD "")
                else result
  (result.drop offset).take limit

/-- Embedding of `DataStore.get_field`. -/
def DataStore.get_field (store : DataStore)
    (field_id owner_id account_id : String) : Option Field :=
  match store.fields.lookup field_id with
  | none => none
  | some f =>
    if f.owner_id == owner_id || f.account_id == account_id then some f
    else none

/-- Embedding of `DataStore.list_objects`. -/
def DataStore.list_objects (store : DataStore) (owner_id account_id : String)
    (limit offset : Nat) (ns : Option String) : List Object :=
  let object_ids := unionIds ((store.objects_by_owner.lookup owner_id).getD [])
                             ((store.objects_by_account.lookup account_id).getD [])
  let result := object_ids.filterMap (fun oid => store.objects.lookup oid)
  let result := if nsTruthy ns then result.filter (fun o => o.«namespace» == ns.getD "")
                else result
  (result.drop offset).take limit

/-- Embedding of `DataStore.get_object`. -/
def DataStore.get_object (store : DataStore)
    (object_id owner_id account_id : String) : Option Object :=
  match store.objects.lookup object_id with
  | none => none
  | some o =>
    if o.owner_id == owner_id || o.account_id == account_id then some o
    else none

/-- Parsed fixture payload: the four record sequences of `load_fixtures`
(`data.get("types", [])` and so on). File lookup and JSON parsing are at the
IO boundary and elided; each raw record is represented by the outcome of its
pydantic constructor: `some e` when `Kind(**record)` validates to `e`, `none`
when it raises a `ValidationError` (a malformed record). -/
structure FixtureData where
  types : List (Option TypeModel)
  validators : List (Option Validator)
  fields : List (Option Field)
  objects : List (Option Object)
deriving DecidableEq

/-- One loop iteration of `load_fixtures` for a `Type` record: insert into the
primary map and append to both secondary indexes. -/
def insertType (st : DataStore) (t : TypeModel) : DataStore :=
  { st with
    types := dictSet st.types t.id t
    types_by_owner := indexAppend st.types_by_owner t.owner_id t.id
    types_by_account := indexAppend st.types_by_account t.account_id t.id }

/-- One loop iteration of `load_fixtures` for a `Validator` record. -/
def insertValidator (st : DataStore) (v : Validator) : DataStore :=
  { st with
    validators := dictSet st.validators v.id v
    validators_by_owner := indexAppend st.validators_by_owner v.owner_id v.id
    validators_by_account := indexAppend st.validators_by_account v.account_id v.id }

/-- One loop iteration of `load_fixtures` for a `Field` record. -/
def insertField (st : DataStore) (f : Field) : DataStore :=
  { st with
    fields := dictSet st.fields f.id f
    fields_by_owner := indexAppend st.fields_by_owner f.owner_id f.id
    fields_by_account := indexAppend st.fields_by_account f.account_id f.id }

/-- One loop iteration of `load_fixtures` for an `Object` record. -/
def insertObject (st : DataStore) (o : Object) : DataStore :=
  { st with
    objects := dictSet st.objects o.id o
    objects_by_owner := indexAppend st.objects_by_owner o.owner_id o.id
    objects_by_account := indexAppend st.objects_by_account o.account_id o.id }

/-- One `for record in data.get(kind, [])` loop of `load_fixtures`: records
are inserted in order by in-place mutation; a malformed record raises,
stopping the loop with the mutations so far kept. The `Bool` is `true` when
the loop completed and `false` when it raised. -/
def loadRecords {α : Type} (ins : DataStore → α → DataStore) :
    DataStore → List (Option α) → DataStore × Bool
  | st, [] => (st, true)
  | st, none :: _ => (st, false)
  | st, some r :: rest => loadRecords ins (ins st r) rest

/-- Embedding of `DataStore.load_fixtures`: the four record loops run in
source order (types, validators, fields, objects); an exception in any loop
propagates immediately, leaving the store in its partially mutated state
(`false` in the second component). -/
def DataStore.load_fixtures (st : DataStore) (data : FixtureData) :
    DataStore × Bool :=
  let r1 := loadRecords insertType st data.types
  if r1.2 = false then (r1.1, false) else
  let r2 := loadRecords insertValidator r1.1 data.validators
  if r2.2 = false then (r2.1, false) else
  let r3 := loadRecords insertField r2.1 data.fields
  if r3.2 = false then (r3.1, false) else
  loadRecords insertObject r3.1 data.objects

/-- Embedding of the pydantic model `UserClaims` (`auth/clerk.py`). -/
structure UserClaims where
  user_id : String
  account_id : String
  email : Option String
deriving DecidableEq

/-- The dict returned by `get_clerk_config`: all three entries are strings in
the source (`require_auth` is serialized as `"true"`/`"false"`). -/
structure ClerkConfig where
  jwks_url : String
  issuer : String
  require_auth : String
deriving DecidableEq

/-- One entry of the JWKS `"keys"` list: `key.get("kid")` plus the key
material that `RSAAlgorithm.from_jwk(key)` would produce, kept abstract as a
string. -/
structure Jwk where
  kid : Option String
  material : String
deriving DecidableEq

/-- A fetched JWKS dict as the code distinguishes it: `none` models the empty
dict `{}` (falsy); `some ks` models a non-empty dict whose `"keys"` entry is
`ks` (a non-empty dict without a `"keys"` entry is `some []`). -/
def Jwks : Type := Option (List Jwk)

instance : DecidableEq Jwks := by
  unfold Jwks
  infer_instance

/-- Python truthiness of the JWKS dict (`if not jwks`). -/
def jwksTruthy : Jwks → Bool
  | none => false
  | some _ => true

/-- The `"keys"` list: `jwks.get("keys", [])`. -/
def jwksKeys : Jwks → List Jwk
  | none => []
  | some ks => ks

/-- The module-level state `_jwks_cache` / `_jwks_cache_time`. -/
structure JwksState where
  cache : Jwks
  cacheTime : Int
deriving DecidableEq

/-- The constant `JWKS_CACHE_TTL = 3600` (one hour in seconds). -/
def JWKS_CACHE_TTL : Int := 3600

/-- A FastAPI `HTTPException` as the code raises it: status code plus detail
string. -/
structure HTTPException where
  status : Nat
  detail : String
deriving DecidableEq

/-- The 503 raised by `fetch_jwks` on a failed remote fetch; `msg` is
`str(e)` of the underlying exception. Per the spec taxonomy this is
`KeySourceUnavailable`. -/
def failedToFetchJwksError (msg : String) : HTTPException :=
  ⟨503, "Failed to fetch JWKS: " ++ msg⟩

/-- The 500 raised by `get_signing_key` when the JWKS dict is falsy. -/
def jwksNotAvailableError : HTTPException :=
  ⟨500, "JWKS not available"⟩

/-- The 401 raised by `get_signing_key` when `jwt.get_unverified_header`
raises; `msg` is `str(e)`. Per the spec taxonomy this is
`MalformedCredential`. -/
def invalidTokenHeaderError (msg : String) : HTTPException :=
  ⟨401, "Invalid token header: " ++ msg⟩

/-- The 401 raised by `get_signing_key` when no JWKS entry matches the `kid`.
Per the spec taxonomy this is `MissingSigningKey`. -/
def unableToFindSigningKeyError : HTTPException :=
  ⟨401, "Unable to find signing key"⟩

/-- The 401 raised by `verify_token` on `jwt.ExpiredSignatureError`. Per the
spec taxonomy this is `ExpiredCredential`. -/
def expiredCredentialError : HTTPException :=
  ⟨401, "Token has expired"⟩

/-- The 401 raised by `verify_token` on `jwt.InvalidIssuerError`. Per the
spec taxonomy this is `InvalidIssuer`. -/
def invalidIssuerError : HTTPException :=
  ⟨401, "Invalid token issuer"⟩

/-- The 401 raised by `verify_token` on any other `jwt.InvalidTokenError`. -/
def invalidTokenError (msg : String) : HTTPException :=
  ⟨401, "Invalid token: " ++ msg⟩

/-- The 401 raised by `verify_token`'s final `except Exception` handler. Per
the spec taxonomy this is `AuthenticationFailed`. -/
def authenticationFailedError (msg : String) : HTTPException :=
  ⟨401, "Authentication failed: " ++ msg⟩

/-- The 401 raised by `get_current_user` when the `sub` claim is falsy. -/
def missingUserIdError : HTTPException :=
  ⟨401, "Invalid token claims: missing user_id"⟩

/-- Starlette's `HTTPException.__str__` is `f"{status_code}: {detail}"`; the
`except Exception` handler in `verify_token` therefore wraps a caught
`HTTPException e` as `authenticationFailedError (str(e))`. -/
def wrapAsAuthFailed (e : HTTPException) : HTTPException :=
  authenticationFailedError (toString e.status ++ ": " ++ e.detail)

/-- Embedding of `fetch_jwks`. The oracle `fetchResult` is the outcome of
`httpx.get(jwks_url).json()`: `Except.ok j` on HTTP success with parsed body
`j`, `Except.error msg` when the request raises with `str(e) = msg`. The
function returns the JWKS together with the updated module state. -/
def fetch_jwks (st : JwksState) (now : Int) (config : ClerkConfig)
    (fetchResult : Except String Jwks) : Except HTTPException (Jwks × JwksState) :=
  if jwksTruthy st.cache ∧ now - st.cacheTime < JWKS_CACHE_TTL then
    .ok (st.cache, st)
  else if config.jwks_url == "" then
    .ok (none, st)
  else
    match fetchResult with
    | .ok j => .ok (j, ⟨j, now⟩)
    | .error msg => .error (failedToFetchJwksError msg)

/-- The `for key in keys` loop of `get_signing_key`: the first key whose
`kid` entry equals the header's `kid` (`None == None` matches in Python, and
`Option` equality mirrors that). -/
def findSigningKey (keys : List Jwk) (kid : Option String) : Option Jwk :=
  keys.find? (fun k => k.kid == kid)

/-- Embedding of `get_signing_key`. The oracle `parseHeader` models
`jwt.get_unverified_header` followed by `header.get("kid")`: `Except.ok kid`
on parse success, `Except.error msg` when parsing raises with
`str(e) = msg`. -/
def get_signing_key (parseHeader : String → Except String (Option String))
    (st : JwksState) (now : Int) (config : ClerkConfig)
    (fetchResult : Except String Jwks) (token : String) :
    Except HTTPException (String × JwksState) :=
  match fetch_jwks st now config fetchResult with
  | .error e => .error e
  | .ok (jwks, st') =>
    if jwksTruthy jwks = false then .error jwksNotAvailableError
    else
      match parseHeader token with
      | .error msg => .error (invalidTokenHeaderError msg)
      | .ok kid =>
        match findSigningKey (jwksKeys jwks) kid with
        | none => .error unableToFindSigningKeyError
        | some key => .ok (key.material, st')

/-- The claims of a decoded JWT payload, restricted to the entries the code
reads (`claims.get("sub")`, `claims.get("org_id")`, `claims.get("email")`);
`none` models an absent key. -/
structure JwtClaims where
  sub : Option String
  org_id : Option String
  email : Option String
deriving DecidableEq

/-- Outcome of `jwt.decode(token, key, algorithms=["RS256"], issuer=...)`:
success with a payload, or one of the exception classes `verify_token`
handles (`ExpiredSignatureError`, `InvalidIssuerError`, any other
`InvalidTokenError`, any other exception). -/
inductive DecodeOutcome where
  | ok (payload : JwtClaims)
  | expiredSignature
  | invalidIssuerExc
  | invalidTokenExc (msg : String)
  | otherExc (msg : String)
deriving DecidableEq

deriving instance DecidableEq for Except

/-- Embedding of `verify_token`. The `try` block covers both
`get_signing_key` and `jwt.decode`; an `HTTPException` raised inside
`get_signing_key` is an `Exception`, so it is caught by the final handler
and re-raised wrapped as `authenticationFailedError`. -/
def verify_token (parseHeader : String → Except String (Option String))
    (decode : String → String → String → DecodeOutcome)
    (st : JwksState) (now : Int) (config : ClerkConfig)
    (fetchResult : Except String Jwks) (token : String) :
    Except HTTPException (JwtClaims × JwksState) :=
  if config.require_auth == "false" then
    .ok (⟨some "user_test123", some "acct_test123", some "test@example.com"⟩, st)
  else
    match get_signing_key parseHeader st now config fetchResult token with
    | .error e => .error (wrapAsAuthFailed e)
    | .ok (key, st') =>
      match decode token key config.issuer with
      | .ok payload => .ok (payload, st')
      | .expiredSignature => .error expiredCredentialError
      | .invalidIssuerExc => .error invalidIssuerError
      | .invalidTokenExc msg => .error (invalidTokenError msg)
      | .otherExc msg => .error (authenticationFailedError msg)

/-- Python `a or b` on `Optional[str]` operands: the left operand unless it
is falsy (`None` or `""`). -/
def pyOrStr : Option String → Option String → Option String
  | some s, b => if s == "" then b else some s
  | none, b => b

/-- Embedding of `get_current_user`, with the credential already extracted
from the `Authorization` header by the HTTP layer. The `if not user_id`
guard fires when the `sub` claim is absent or the empty string. -/
def get_current_user (parseHeader : String → Except String (Option String))
    (decode : String → String → String → DecodeOutcome)
    (st : JwksState) (now : Int) (config : ClerkConfig)
    (fetchResult : Except String Jwks) (credentials : String) :
    Except HTTPException (UserClaims × JwksState) :=
  if config.require_auth == "false" then
    .ok (⟨"user_test123", "acct_test123", some "test@example.com"⟩, st)
  else
    match verify_token parseHeader decode st now config fetchResult credentials with
    | .error e => .error e
    | .ok (claims, st') =>
      let account_id := pyOrStr claims.org_id claims.sub
      match claims.sub with
      | none => .error missingUserIdError
      | some u =>
        if u == "" then .error missingUserIdError
        else .ok (⟨u, account_id.getD u, claims.email⟩, st')

/-- Modelled from the spec (§4.3 list contract), for comparison with the
source's `list_types`: the deduplicated union of the by-owner index entry and
the by-account index entry, then the offset/limit slice. The spec's namespace
filter applies only "if the entity kind has a namespace attribute", which
`Type` does not, so no filter step occurs for this kind. -/
def listTypesSpec (store : DataStore) (owner_id account_id : String)
    (limit offset : Nat) (_ns : Option String) : List TypeModel :=
  let ids := unionIds ((store.types_by_owner.lookup owner_id).getD [])
                      ((store.types_by_account.lookup account_id).getD [])
  let ents := ids.filterMap (fun i => store.types.lookup i)
  (ents.drop offset).take limit

/-- Modelled from the spec (§4.3 list contract), for comparison with the
source's `list_fields`: the deduplicated union of the two index entries,
namespace-filtered by exact string equality when a namespace is supplied,
then the offset/limit slice. A namespace argument counts as supplied when it
is non-empty (the empty string disables filtering; see the C10 claim). -/
def listFieldsSpec (store : DataStore) (owner_id account_id : String)
    (limit offset : Nat) (ns : Option String) : List Field :=
  let ids := unionIds ((store.fields_by_owner.lookup owner_id).getD [])
                      ((store.fields_by_account.lookup account_id).getD [])
  let ents := ids.filterMap (fun i => store.fields.lookup i)
  let ents := if nsTruthy ns then ents.filter (fun f => f.«namespace» == ns.getD "")
              else ents
  (ents.drop offset).take limit

/-! Concrete sample data used by witnesses and counterexamples. -/

/-- A sample `Type` owned by `u1`/`a1`. -/
def sampleType1 : TypeModel :=
  ⟨"type1", "String", "str", "Text string type", true, false, none,
   "u1", "a1", "2024-01-01T00:00:00Z", "2024-01-01T00:00:00Z"⟩

/-- A sample `Type` owned by `u2`/`a2`. -/
def sampleType2 : TypeModel :=
  ⟨"type2", "Integer", "int", "Integer type", true, false, none,
   "u2", "a2", "2024-01-01T00:00:00Z", "2024-01-01T00:00:00Z"⟩

/-- A sample `Validator` owned by `u1`/`a1`. -/
def sampleValidator1 : Validator :=
  ⟨"val1", "Email Format", ValidatorType.pattern, "Validates emails", [],
   "Invalid email format", "u1", "a1",
   "2024-01-01T00:00:00Z", "2024-01-01T00:00:00Z"⟩

/-- A sample `Field` in namespace `user`, owned by `u1`/`a1`. -/
def sampleField1 : Field :=
  ⟨"field1", "email", "type1", "User email", true, true, true, none,
   ["val1"], "user", "u1", "a1",
   "2024-01-01T00:00:00Z", "2024-01-01T00:00:00Z"⟩

/-- A sample `Field` in namespace `game`, owned by `u2`/`a2`. -/
def sampleField2 : Field :=
  ⟨"field2", "score", "type2", "Game score", false, false, false, none,
   [], "game", "u2", "a2",
   "2024-01-01T00:00:00Z", "2024-01-01T00:00:00Z"⟩

/-- A sample `Object` in namespace `user`, owned by `u1`/`a1`. -/
def sampleObject1 : Object :=
  ⟨"obj1", "User", "User account object", ["field1"], "user", "users", true,
   "u1", "a1", "2024-01-01T00:00:00Z", "2024-01-01T00:00:00Z"⟩

/-- A small store holding the sample entities, with both secondary indexes
consistent with the primary maps (the state `load_fixtures` would build). -/
def sampleStore : DataStore where
  types := [("type1", sampleType1), ("type2", sampleType2)]
  validators := [("val1", sampleValidator1)]
  fields := [("field1", sampleField1), ("field2", sampleField2)]
  objects := [("obj1", sampleObject1)]
  types_by_owner := [("u1", ["type1"]), ("u2", ["type2"])]
  validators_by_owner := [("u1", ["val1"])]
  fields_by_owner := [("u1", ["field1"]), ("u2", ["field2"])]
  objects_by_owner := [("u1", ["obj1"])]
  types_by_account := [("a1", ["type1"]), ("a2", ["type2"])]
  validators_by_account := [("a1", ["val1"])]
  fields_by_account := [("a1", ["field1"]), ("a2", ["field2"])]
  objects_by_account := [("a1", ["obj1"])]

/-- A verification-required configuration. -/
def sampleConfigRequired : ClerkConfig :=
  ⟨"https://clerk.example.com/jwks", "https://clerk.example.com", "true"⟩

/-- A bypass-mode configuration (`REQUIRE_AUTH=false`). -/
def sampleConfigBypass : ClerkConfig :=
  ⟨"", "", "false"⟩

/-- A JWKS state holding one key `k1`, freshly fetched at time 1000. -/
def sampleFreshState : JwksState :=
  ⟨some [⟨some "k1", "material1"⟩], 1000⟩

/-- A fixture payload whose second `Type` record is malformed. -/
def badFixtures : FixtureData :=
  ⟨[some sampleType1, none], [], [], []⟩

/-! Helper lemmas shared by the claim theorems. -/

/-- With a truthy namespace argument, `list_types` filters against the
constant `""` (the `getattr` default) and therefore keeps nothing. -/
theorem list_types_truthy_ns_nil (store : DataStore) (uid aid : String)
    (limit offset : Nat) (s : String) (hs : s ≠ "") :
    store.list_types uid aid limit offset (some s) = [] := by
  unfold DataStore.list_types
  have ht : nsTruthy (some s) = true := by
    simp [nsTruthy, hs]
  have hf : ("" == s) = false := by
    simp [Ne.symm hs]
  have hnil : ∀ l : List TypeModel, l.filter (fun _t => "" == (some s : Option String).getD "") = [] := by
    intro l
    induction l with
    | nil => rfl
    | cons a t ihl => simp [List.filter_cons, hf, ihl]
  simp only [ht, if_true, hnil]
  simp

/-- With a truthy namespace argument, `list_validators` filters against the
constant `""` and keeps nothing. -/
theorem list_validators_truthy_ns_nil (store : DataStore) (uid aid : String)
    (limit offset : Nat) (s : String) (hs : s ≠ "") :
    store.list_validators uid aid limit offset (some s) = [] := by
  unfold DataStore.list_validators
  have ht : nsTruthy (some s) = true := by
    simp [nsTruthy, hs]
  have hf : ("" == s) = false := by
    simp [Ne.symm hs]
  have hnil : ∀ l : List Validator, l.filter (fun _v => "" == (some s : Option String).getD "") = [] := by
    intro l
    induction l with
    | nil => rfl
    | cons a t ihl => simp [List.filter_cons, hf, ihl]
  simp only [ht, if_true, hnil]
  simp

/-- Every result of `list_types` has length at most `limit`. -/
theorem list_types_length_le (store : DataStore) (uid aid : String)
    (limit offset : Nat) (ns : Option String) :
    (store.list_types uid aid limit offset ns).length ≤ limit := by
  unfold DataStore.list_types
  simp only [List.length_take]
  exact min_le_left _ _

/-- Every result of `list_fields` has length at most `limit`. -/
theorem list_fields_length_le (store : DataStore) (uid aid : String)
    (limit offset : Nat) (ns : Option String) :
    (store.list_fields uid aid limit offset ns).length ≤ limit := by
  unfold DataStore.list_fields
  simp only [List.length_take]
  exact min_le_left _ _

/-- A record loop that meets a malformed record reports failure. -/
theorem loadRecords_none_mem {α : Type} (ins : DataStore → α → DataStore)
    (l : List (Option α)) :
    ∀ st : DataStore, none ∈ l → (loadRecords ins st l).2 = false := by
  induction l with
  | nil =>
    intro st h
    cases h
  | cons x rest ih =>
    intro st h
    cases x with
    | none => rfl
    | some r =>
      rcases List.mem_cons.mp h with h1 | h1
      · cases h1
      · exact ih (ins st r) h1

/-- A record loop with no malformed record reports success. -/
theorem loadRecords_no_none {α : Type} (ins : DataStore → α → DataStore)
    (l : List (Option α)) :
    ∀ st : DataStore, none ∉ l → (loadRecords ins st l).2 = true := by
  induction l with
  | nil =>
    intro st _
    rfl
  | cons x rest ih =>
    intro st h
    cases x with
    | none => exact absurd (List.mem_cons_self _ _) h
    | some r =>
      exact ih (ins st r) (fun hm => h (List.mem_cons_of_mem _ hm))

/-! Claim theorems. -/

/-- C1: for every entity of each of the four kinds stored under its id,
`get` returns the entity exactly when the caller's user id matches the
owner or the caller's account id matches the account, returns `none`
otherwise, and returns the same `none` for an id present in no map: an
existing-but-invisible entity is indistinguishable from a nonexistent
one. -/
theorem c1_get_scoped_visibility (store : DataStore) (uid aid : String) :
    ((∀ t : TypeModel, store.types.lookup t.id = some t →
        store.get_type t.id uid aid
          = if t.owner_id = uid ∨ t.account_id = aid then some t else none)
      ∧ (∀ i : String, store.types.lookup i = none →
          store.get_type i uid aid = none))
  ∧ ((∀ v : Validator, store.validators.lookup v.id = some v →
        store.get_validator v.id uid aid
          = if v.owner_id = uid ∨ v.account_id = aid then some v else none)
      ∧ (∀ i : String, store.validators.lookup i = none →
          store.get_validator i uid aid = none))
  ∧ ((∀ f : Field, store.fields.lookup f.id = some f →
        store.get_field f.id uid aid
          = if f.owner_id = uid ∨ f.account_id = aid then some f else none)
      ∧ (∀ i : String, store.fields.lookup i = none →
          store.get_field i uid aid = none))
  ∧ ((∀ o : Object, store.objects.lookup o.id = some o →
        store.get_object o.id uid aid
          = if o.owner_id = uid ∨ o.account_id = aid then some o else none)
      ∧ (∀ i : String, store.objects.lookup i = none →
          store.get_object i uid aid = none)) := by
  refine ⟨⟨?_, ?_⟩, ⟨?_, ?_⟩, ⟨?_, ?_⟩, ⟨?_, ?_⟩⟩
  · intro t h
    unfold DataStore.get_type
    rw [h]
    by_cases hv : t.owner_id = uid ∨ t.account_id = aid
    · have hb : (t.owner_id == uid || t.account_id == aid) = true := by
        rcases hv with h1 | h1 <;> simp [h1]
      simp [hb, hv]
    · push_neg at hv
      have hb : (t.owner_id == uid || t.account_id == aid) = false := by
        simp [hv.1, hv.2]
      simp [hb, hv.1, hv.2]
  · intro i h
    unfold DataStore.get_type
    rw [h]
  · intro v h
    unfold DataStore.get_validator
    rw [h]
    by_cases hv : v.owner_id = uid ∨ v.account_id = aid
    · have hb : (v.owner_id == uid || v.account_id == aid) = true := by
        rcases hv with h1 | h1 <;> simp [h1]
      simp [hb, hv]
    · push_neg at hv
      have hb : (v.owner_id == uid || v.account_id == aid) = false := by
        simp [hv.1, hv.2]
      simp [hb, hv.1, hv.2]
  · intro i h
    unfold DataStore.get_validator
    rw [h]
  · intro f h
    unfold DataStore.get_field
    rw [h]
    by_cases hv : f.owner_id = uid ∨ f.account_id = aid
    · have hb : (f.owner_id == uid || f.account_id == aid) = true := by
        rcases hv with h1 | h1 <;> simp [h1]
      simp [hb, hv]
    · push_neg at hv
      have hb : (f.owner_id == uid || f.account_id == aid) = false := by
        simp [hv.1, hv.2]
      simp [hb, hv.1, hv.2]
  · intro i h
    unfold DataStore.get_field
    rw [h]
  · intro o h
    unfold DataStore.get_object
    rw [h]
    by_cases hv : o.owner_id = uid ∨ o.account_id = aid
    · have hb : (o.owner_id == uid || o.account_id == aid) = true := by
        rcases hv with h1 | h1 <;> simp [h1]
      simp [hb, hv]
    · push_neg at hv
      have hb : (o.owner_id == uid || o.account_id == aid) = false := by
        simp [hv.1, hv.2]
      simp [hb, hv.1, hv.2]
  · intro i h
    unfold DataStore.get_object
    rw [h]

/-- Witness for C1: on the sample store, an account-mismatched caller whose
user id owns `type1` still retrieves it, and an id in no map yields the same
`none`. -/
theorem c1_get_scoped_visibility_witness :
    sampleStore.get_type "type1" "u1" "zzz" = some sampleType1
  ∧ sampleStore.get_field "missing" "u1" "a1" = none := by
  constructor
  · exact ((c1_get_scoped_visibility sampleStore "u1" "zzz").1.1 sampleType1
      (by decide)).trans (by decide)
  · exact (c1_get_scoped_visibility sampleStore "u1" "a1").2.2.1.2 "missing"
      (by decide)

/-- C2 counterexample: on the sample store, supplying the non-empty
namespace `user` to `list_types` yields the empty list, not the same
sequence as the call without a namespace, refuting the claim that the store
"does not filter on it" for the Type kind. -/
theorem c2_counterexample :
    sampleStore.list_types "u1" "a1" 100 0 (some "user") = []
  ∧ sampleStore.list_types "u1" "a1" 100 0 none = [sampleType1]
  ∧ sampleStore.list_types "u1" "a1" 100 0 (some "user")
      ≠ sampleStore.list_types "u1" "a1" 100 0 none :=
  ⟨by decide, by decide, by decide⟩

/-- C2 amended: for every caller, a non-empty namespace argument to `list`
for the Type and Validator kinds is accepted without erroring but filters
out every record (the kinds carry no namespace attribute, so the `getattr`
default `""` never equals the non-empty namespace): the result is the empty
sequence, not the unfiltered sequence; for Field and Object the filter
applies by exact string equality. -/
theorem c2_amended (store : DataStore) (uid aid : String) (limit offset : Nat)
    (ns : String) (hns : ns ≠ "") :
    store.list_types uid aid limit offset (some ns) = []
  ∧ store.list_validators uid aid limit offset (some ns) = []
  ∧ (∀ f ∈ store.list_fields uid aid limit offset (some ns), f.«namespace» = ns)
  ∧ (∀ o ∈ store.list_objects uid aid limit offset (some ns), o.«namespace» = ns) := by
  refine ⟨list_types_truthy_ns_nil store uid aid limit offset ns hns,
          list_validators_truthy_ns_nil store uid aid limit offset ns hns, ?_, ?_⟩
  · intro f hf
    have ht : nsTruthy (some ns) = true := by
      simp [nsTruthy, hns]
    unfold DataStore.list_fields at hf
    simp only [ht, if_true] at hf
    have h1 := List.take_subset _ _ hf
    have h2 := List.drop_subset _ _ h1
    have h3 := List.mem_filter.mp h2
    simpa using h3.2
  · intro o ho
    have ht : nsTruthy (some ns) = true := by
      simp [nsTruthy, hns]
    unfold DataStore.list_objects at ho
    simp only [ht, if_true] at ho
    have h1 := List.take_subset _ _ ho
    have h2 := List.drop_subset _ _ h1
    have h3 := List.mem_filter.mp h2
    simpa using h3.2

/-- Witness for C2 amended: on the sample store with namespace `user`, the
Type list is empty while the Field list's sole member carries namespace
`user`. -/
theorem c2_amended_witness :
    sampleStore.list_types "u1" "a1" 100 0 (some "user") = []
  ∧ sampleField1.«namespace» = "user" := by
  have h := c2_amended sampleStore "u1" "a1" 100 0 "user" (by decide)
  exact ⟨h.1, h.2.2.1 sampleField1 (by decide)⟩

/-- C3 counterexample: on the sample store with limit 100 ≥ 1 and offset 0,
`list_types` with namespace `user` returns the empty list while the spec's
pipeline (union, dedup, no namespace step for a kind without the attribute,
slice) returns the caller's type, refuting the claimed pipeline equality. -/
theorem c3_counterexample :
    sampleStore.list_types "u1" "a1" 100 0 (some "user")
      ≠ listTypesSpec sampleStore "u1" "a1" 100 0 (some "user") := by
  decide

/-- C3 amended: `list_fields` equals the spec pipeline for every caller,
limit, offset and namespace argument; `list_types` equals the pipeline
whenever the namespace argument is absent or empty, and returns the empty
list (rather than the pipeline's unfiltered slice) when a non-empty
namespace is supplied; both calls return at most `limit` results for any
non-negative offset and limit, never erroring. -/
theorem c3_amended (store : DataStore) (uid aid : String) (limit offset : Nat)
    (ns : Option String) :
    store.list_fields uid aid limit offset ns
      = listFieldsSpec store uid aid limit offset ns
  ∧ (nsTruthy ns = false →
      store.list_types uid aid limit offset ns
        = listTypesSpec store uid aid limit offset ns)
  ∧ (∀ s : String, ns = some s → s ≠ "" →
      store.list_types uid aid limit offset ns = [])
  ∧ (store.list_types uid aid limit offset ns).length ≤ limit
  ∧ (store.list_fields uid aid limit offset ns).length ≤ limit := by
  refine ⟨rfl, ?_, ?_, list_types_length_le store uid aid limit offset ns,
          list_fields_length_le store uid aid limit offset ns⟩
  · intro hns
    unfold DataStore.list_types listTypesSpec
    simp only [hns, if_false, Bool.false_eq_true]
  · intro s hs hne
    subst hs
    exact list_types_truthy_ns_nil store uid aid limit offset s hne

/-- Witness for C3 amended: concrete pipeline equality for fields, pipeline
equality for types without a namespace, and the empty result for types with
one. -/
theorem c3_amended_witness :
    sampleStore.list_fields "u1" "a1" 100 0 (some "user")
      = listFieldsSpec sampleStore "u1" "a1" 100 0 (some "user")
  ∧ sampleStore.list_types "u1" "a1" 100 0 none
      = listTypesSpec sampleStore "u1" "a1" 100 0 none
  ∧ sampleStore.list_types "u1" "a1" 100 0 (some "user") = [] := by
  have h := c3_amended sampleStore "u1" "a1" 100 0 (some "user")
  have h2 := c3_amended sampleStore "u1" "a1" 100 0 none
  exact ⟨h.1, h2.2.1 rfl, h.2.2.1 "user" rfl (by decide)⟩

/-- C4: whenever a key-set fetch is due (the cache is empty or its TTL has
elapsed), the key-source URL is configured, and the remote fetch fails,
`fetch_jwks` fails with the 503 `KeySourceUnavailable` error — for every
prior cache, including a non-empty stale one, which is never used as a
fallback. -/
theorem c4_failed_refresh_no_stale_fallback (st : JwksState) (now : Int)
    (config : ClerkConfig) (msg : String)
    (hdue : ¬(jwksTruthy st.cache = true ∧ now - st.cacheTime < JWKS_CACHE_TTL))
    (hurl : config.jwks_url ≠ "") :
    fetch_jwks st now config (.error msg)
      = .error (failedToFetchJwksError msg) := by
  unfold fetch_jwks
  rw [if_neg hdue, if_neg (by simpa using hurl)]

/-- Witness for C4: a non-empty key set fetched at time 0, queried at time
5000 (past the one-hour TTL) with a failing remote, surfaces the 503 error
instead of the stale cache. -/
theorem c4_failed_refresh_no_stale_fallback_witness :
    fetch_jwks ⟨some [⟨some "k1", "material1"⟩], 0⟩ 5000 sampleConfigRequired
        (.error "connection refused")
      = .error (failedToFetchJwksError "connection refused") :=
  c4_failed_refresh_no_stale_fallback ⟨some [⟨some "k1", "material1"⟩], 0⟩ 5000
    sampleConfigRequired "connection refused" (by decide) (by decide)

/-- C5: with the require-authentication flag false, `verify_token` returns
the fixed test claims and `get_current_user` the fixed test identity
(`user_test123` / `acct_test123` / `test@example.com`) for every credential
string — the credential and every oracle are universally quantified, so the
credential is never inspected. -/
theorem c5_bypass_fixed_identity
    (parseHeader : String → Except String (Option String))
    (decode : String → String → String → DecodeOutcome)
    (st : JwksState) (now : Int) (config : ClerkConfig)
    (fetchResult : Except String Jwks) (token : String)
    (hbypass : config.require_auth = "false") :
    get_current_user parseHeader decode st now config fetchResult token
      = .ok (⟨"user_test123", "acct_test123", some "test@example.com"⟩, st)
  ∧ verify_token parseHeader decode st now config fetchResult token
      = .ok (⟨some "user_test123", some "acct_test123",
              some "test@example.com"⟩, st) := by
  constructor
  · unfold get_current_user
    rw [hbypass]
    rfl
  · unfold verify_token
    rw [hbypass]
    rfl

/-- Witness for C5: bypass mode on the empty credential string, with every
oracle failing, still yields the fixed test identity. -/
theorem c5_bypass_fixed_identity_witness :
    get_current_user (fun _ => .error "x") (fun _ _ _ => .otherExc "x")
        sampleFreshState 1000 sampleConfigBypass (.error "down") ""
      = .ok (⟨"user_test123", "acct_test123", some "test@example.com"⟩,
             sampleFreshState) :=
  (c5_bypass_fixed_identity (fun _ => .error "x") (fun _ _ _ => .otherExc "x")
    sampleFreshState 1000 sampleConfigBypass (.error "down") "" rfl).1

/-- C6 counterexample: a successfully verified payload whose organization
claim is present but empty (`org_id = some ""`) produces an identity whose
`account_id` is the subject `user1`, not the present organization claim
`""`, refuting the claim that `account_id` equals the organization claim
whenever it is present. -/
theorem c6_counterexample :
    get_current_user (fun _ => .ok (some "k1"))
        (fun _ _ _ => .ok ⟨some "user1", some "", none⟩)
        sampleFreshState 1000 sampleConfigRequired (.ok none) "tok"
      = .ok (⟨"user1", "user1", none⟩, sampleFreshState)
  ∧ ("user1" : String) ≠ "" :=
  ⟨by decide, by decide⟩

/-- C6 amended: for every successfully verified claims payload, the produced
identity has `user_id` equal to the subject claim, `account_id` equal to the
organization claim when it is present and non-empty and the subject claim
otherwise, and `email` equal to the email claim when present and null
otherwise; when the subject claim is missing — or present but empty, which
Python truthiness treats the same — the call fails with the
missing-user-id authentication error instead of producing an identity. -/
theorem c6_amended
    (parseHeader : String → Except String (Option String))
    (decode : String → String → String → DecodeOutcome)
    (st : JwksState) (now : Int) (config : ClerkConfig)
    (fetchResult : Except String Jwks) (token : String)
    (claims : JwtClaims) (st' : JwksState)
    (hreq : config.require_auth ≠ "false")
    (hverify : verify_token parseHeader decode st now config fetchResult token
      = .ok (claims, st')) :
    (∀ u : String, claims.sub = some u → u ≠ "" →
       get_current_user parseHeader decode st now config fetchResult token
         = .ok (⟨u,
                 match claims.org_id with
                 | some o => if o = "" then u else o
                 | none => u,
                 claims.email⟩, st'))
  ∧ ((claims.sub = none ∨ claims.sub = some "") →
       get_current_user parseHeader decode st now config fetchResult token
         = .error missingUserIdError) := by
  constructor
  · intro u hu hne
    unfold get_current_user
    rw [if_neg (by simpa using hreq), hverify]
    cases ho : claims.org_id with
    | none => simp [hu, ho, pyOrStr, hne]
    | some o =>
      by_cases he : o = ""
      · subst he
        simp [hu, ho, pyOrStr, hne]
      · simp [hu, ho, pyOrStr, hne, he]
  · intro hu
    unfold get_current_user
    rw [if_neg (by simpa using hreq), hverify]
    rcases hu with h1 | h1 <;> simp [h1]

/-- Witness for C6 amended: a payload with subject `user1`, organization
`org9` and email `e@x` produces exactly that identity. -/
theorem c6_amended_witness :
    get_current_user (fun _ => .ok (some "k1"))
        (fun _ _ _ => .ok ⟨some "user1", some "org9", some "e@x"⟩)
        sampleFreshState 1000 sampleConfigRequired (.ok none) "tok"
      = .ok (⟨"user1", "org9", some "e@x"⟩, sampleFreshState) := by
  have h := (c6_amended (fun _ => .ok (some "k1"))
      (fun _ _ _ => .ok ⟨some "user1", some "org9", some "e@x"⟩)
      sampleFreshState 1000 sampleConfigRequired (.ok none) "tok"
      ⟨some "user1", some "org9", some "e@x"⟩ sampleFreshState
      (by decide) (by decide)).1 "user1" rfl (by decide)
  exact h.trans (by decide)

/-- C7 counterexample: with a fresh non-empty key cache, a credential whose
header fails to parse (`str(e) = "bad header"`) makes `verify_token` fail
with the catch-all 401 `Authentication failed: 401: Invalid token header:
bad header` — the `except Exception` handler re-wraps the 401 raised inside
`get_signing_key` — which is not the `MalformedCredential` error
`Invalid token header: bad header` that the claim names. -/
theorem c7_counterexample :
    verify_token (fun _ => .error "bad header") (fun _ _ _ => .otherExc "unused")
        sampleFreshState 1000 sampleConfigRequired (.ok none) "tok"
      = .error (authenticationFailedError "401: Invalid token header: bad header")
  ∧ authenticationFailedError "401: Invalid token header: bad header"
      ≠ invalidTokenHeaderError "bad header" :=
  ⟨by decide, by decide⟩

/-- C7 amended: in verification-required mode, when the key set is obtained
and non-empty, a credential whose header fails to parse makes `verify`
fail with the catch-all `AuthenticationFailed` 401 whose detail wraps the
`MalformedCredential` parse error (`Authentication failed: 401: Invalid
token header: …`), for every such state of the key cache; when the key set
cannot be obtained the header is never parsed and the failure is the
wrapped key-source error instead. -/
theorem c7_amended
    (parseHeader : String → Except String (Option String))
    (decode : String → String → String → DecodeOutcome)
    (st : JwksState) (now : Int) (config : ClerkConfig)
    (fetchResult : Except String Jwks) (token msg : String)
    (jwks : Jwks) (st' : JwksState)
    (hreq : config.require_auth ≠ "false")
    (hfetch : fetch_jwks st now config fetchResult = .ok (jwks, st'))
    (hjwks : jwksTruthy jwks = true)
    (hparse : parseHeader token = .error msg) :
    verify_token parseHeader decode st now config fetchResult token
      = .error (wrapAsAuthFailed (invalidTokenHeaderError msg)) := by
  unfold verify_token get_signing_key
  rw [if_neg (by simpa using hreq), hfetch]
  simp only [hjwks, Bool.true_eq_false, if_false, hparse]

/-- Witness for C7 amended: the concrete wrapped error on a fresh cache. -/
theorem c7_amended_witness :
    verify_token (fun _ => .error "boom") (fun _ _ _ => .otherExc "unused")
        sampleFreshState 1000 sampleConfigRequired (.ok none) "tok"
      = .error (authenticationFailedError "401: Invalid token header: boom") := by
  have h := c7_amended (fun _ => .error "boom") (fun _ _ _ => .otherExc "unused")
      sampleFreshState 1000 sampleConfigRequired (.ok none) "tok" "boom"
      (some [⟨some "k1", "material1"⟩]) sampleFreshState
      (by decide) (by decide) (by decide) rfl
  exact h.trans (by decide)

/-- C8 counterexample: with a fresh key set holding only `k1`, a credential
whose header names `k2` makes `verify_token` fail with the catch-all 401
`Authentication failed: 401: Unable to find signing key` — again the
re-wrapped form — not the `MissingSigningKey` error `Unable to find signing
key` the claim names. -/
theorem c8_counterexample :
    verify_token (fun _ => .ok (some "k2")) (fun _ _ _ => .otherExc "unused")
        sampleFreshState 1000 sampleConfigRequired (.ok none) "tok"
      = .error (authenticationFailedError "401: Unable to find signing key")
  ∧ authenticationFailedError "401: Unable to find signing key"
      ≠ unableToFindSigningKeyError :=
  ⟨by decide, by decide⟩

/-- C8 amended: in verification-required mode with an available non-empty
key set and a parsed header, a key identifier matching no entry fails with
the catch-all `AuthenticationFailed` 401 wrapping the `MissingSigningKey`
detail; an expired credential fails with `ExpiredCredential` and an issuer
mismatch with `InvalidIssuer`, exactly as named (those two are raised by
`jwt.decode` and caught by their dedicated handlers before the
catch-all). -/
theorem c8_amended
    (parseHeader : String → Except String (Option String))
    (decode : String → String → String → DecodeOutcome)
    (st : JwksState) (now : Int) (config : ClerkConfig)
    (fetchResult : Except String Jwks) (token : String)
    (jwks : Jwks) (st' : JwksState) (kid : Option String)
    (hreq : config.require_auth ≠ "false")
    (hfetch : fetch_jwks st now config fetchResult = .ok (jwks, st'))
    (hjwks : jwksTruthy jwks = true)
    (hparse : parseHeader token = .ok kid) :
    (findSigningKey (jwksKeys jwks) kid = none →
       verify_token parseHeader decode st now config fetchResult token
         = .error (wrapAsAuthFailed unableToFindSigningKeyError))
  ∧ (∀ key : Jwk, findSigningKey (jwksKeys jwks) kid = some key →
       (decode token key.material config.issuer = .expiredSignature →
          verify_token parseHeader decode st now config fetchResult token
            = .error expiredCredentialError)
     ∧ (decode token key.material config.issuer = .invalidIssuerExc →
          verify_token parseHeader decode st now config fetchResult token
            = .error invalidIssuerError)) := by
  constructor
  · intro hfind
    unfold verify_token get_signing_key
    rw [if_neg (by simpa using hreq), hfetch]
    simp only [hjwks, Bool.true_eq_false, if_false, hparse, hfind]
  · intro key hfind
    constructor
    · intro hdec
      unfold verify_token get_signing_key
      rw [if_neg (by simpa using hreq), hfetch]
      simp only [hjwks, Bool.true_eq_false, if_false, hparse, hfind, hdec]
    · intro hdec
      unfold verify_token get_signing_key
      rw [if_neg (by simpa using hreq), hfetch]
      simp only [hjwks, Bool.true_eq_false, if_false, hparse, hfind, hdec]

/-- Witness for C8 amended: an expired credential under the fresh sample
cache yields exactly the `ExpiredCredential` 401. -/
theorem c8_amended_witness :
    verify_token (fun _ => .ok (some "k1")) (fun _ _ _ => .expiredSignature)
        sampleFreshState 1000 sampleConfigRequired (.ok none) "tok"
      = .error expiredCredentialError :=
  ((c8_amended (fun _ => .ok (some "k1")) (fun _ _ _ => .expiredSignature)
      sampleFreshState 1000 sampleConfigRequired (.ok none) "tok"
      (some [⟨some "k1", "material1"⟩]) sampleFreshState (some "k1")
      (by decide) (by decide) (by decide) rfl).2
    ⟨some "k1", "material1"⟩ (by decide)).1 rfl

/-- C9 counterexample: loading a fixture set whose second Type record is
malformed fails, but the store is not left as if the load had never begun:
the first record is present afterwards, observable through `get_type`. -/
theorem c9_counterexample :
    (DataStore.empty.load_fixtures badFixtures).2 = false
  ∧ (DataStore.empty.load_fixtures badFixtures).1 ≠ DataStore.empty
  ∧ (DataStore.empty.load_fixtures badFixtures).1.get_type "type1" "u1" "zzz"
      = some sampleType1 :=
  ⟨by decide, by decide, by decide⟩

/-- C9 amended: for every input dataset containing at least one malformed
record, the load fails (raises) rather than silently skipping the record —
fail-fast holds — but the failure is not atomic: the store keeps the
records inserted before the malformed one, as shown here for a well-formed
Type record immediately preceding the malformed one. -/
theorem c9_amended (st : DataStore) (data : FixtureData)
    (hbad : none ∈ data.types ∨ none ∈ data.validators
      ∨ none ∈ data.fields ∨ none ∈ data.objects) :
    (st.load_fixtures data).2 = false
  ∧ (∀ (t : TypeModel) (rest : List (Option TypeModel)),
       data.types = some t :: none :: rest →
         (st.load_fixtures data).1 = insertType st t) := by
  constructor
  · unfold DataStore.load_fixtures
    by_cases h1 : none ∈ data.types
    · simp [loadRecords_none_mem insertType data.types st h1]
    · have e1 := loadRecords_no_none insertType data.types st h1
      simp only [e1, Bool.true_eq_false, if_false]
      set st1 := (loadRecords insertType st data.types).1 with hst1
      by_cases h2 : none ∈ data.validators
      · simp [loadRecords_none_mem insertValidator data.validators st1 h2]
      · have e2 := loadRecords_no_none insertValidator data.validators st1 h2
        simp only [e2, Bool.true_eq_false, if_false]
        set st2 := (loadRecords insertValidator st1 data.validators).1 with hst2
        by_cases h3 : none ∈ data.fields
        · simp [loadRecords_none_mem insertField data.fields st2 h3]
        · have e3 := loadRecords_no_none insertField data.fields st2 h3
          simp only [e3, Bool.true_eq_false, if_false]
          have h4 : none ∈ data.objects := by
            rcases hbad with h | h | h | h
            · exact absurd h h1
            · exact absurd h h2
            · exact absurd h h3
            · exact h
          exact loadRecords_none_mem insertObject data.objects _ h4
  · intro t rest hshape
    unfold DataStore.load_fixtures
    rw [hshape]
    rfl

/-- Witness for C9 amended: the concrete malformed fixture set fails and
keeps exactly the record inserted before the failure. -/
theorem c9_amended_witness :
    (DataStore.empty.load_fixtures badFixtures).2 = false
  ∧ (DataStore.empty.load_fixtures badFixtures).1
      = insertType DataStore.empty sampleType1 := by
  have h := c9_amended DataStore.empty badFixtures (Or.inl (by decide))
  exact ⟨h.1, h.2 sampleType1 [] rfl⟩

/-- C10: for every caller, limit and offset, a namespace argument equal to
the empty string is falsy, so the filter branch is skipped for all four
kinds: the result is exactly the call without a namespace argument — in
particular, for Field and Object the empty string does not select entities
whose namespace attribute is empty; it disables filtering entirely. -/
theorem c10_empty_namespace_disables_filter (store : DataStore)
    (uid aid : String) (limit offset : Nat) :
    store.list_types uid aid limit offset (some "")
      = store.list_types uid aid limit offset none
  ∧ store.list_validators uid aid limit offset (some "")
      = store.list_validators uid aid limit offset none
  ∧ store.list_fields uid aid limit offset (some "")
      = store.list_fields uid aid limit offset none
  ∧ store.list_objects uid aid limit offset (some "")
      = store.list_objects uid aid limit offset none := by
  refine ⟨?_, ?_, ?_, ?_⟩
  · unfold DataStore.list_types
    rfl
  · unfold DataStore.list_validators
    rfl
  · unfold DataStore.list_fields
    rfl
  · unfold DataStore.list_objects
    rfl

end MockApi
